import Mathlib

/-!
Verification of the uniclogs-ax5043-driver L-band receiver.

This file shallowly embeds the packet-reassembly state machine
(`process_chunk`, `read_packet` in `src/bin/lband.rs`), the receiver-profile
register derivation (`RXParameters::write` in `examples/lband.rs`), the
revision gate of `main`, and the readiness event loop, and proves the spec's
claims about them.

Bytes are `Fin 256`; machine arithmetic is `Nat` with explicit bounds where
overflow or conversion matters.  A Rust panic (index out of bounds, usize
underflow, `try_into().unwrap()` failure, division by zero) is modelled as
`none` / an explicit failure value.
-/

set_option maxRecDepth 100000

namespace Ax5043

/-- A byte, as stored in the `Vec<u8>` packet accumulator. -/
abbrev Byte := Fin 256

/-- The flag bits of a DATA FIFO chunk (`FIFODataRXFlags`), modelled as one
Bool per flag used by `process_chunk`. -/
structure Flags where
  pktstart : Bool
  pktend : Bool
  abort : Bool
  sizefail : Bool
  addrfail : Bool
  crcfail : Bool
  residue : Bool
deriving DecidableEq, Repr

/-- One FIFO chunk (`FIFOChunkRX`).  The DATA variant is the one
`process_chunk` destructures; all other variants of the library enum are
abstracted by `NONDATA` (tagged so that distinct non-DATA chunks exist),
since `process_chunk` matches only on `DATA` and never inspects the rest. -/
inductive FIFOChunkRX where
  | DATA (flags : Flags) (data : List Byte)
  | NONDATA (tag : Nat)
deriving DecidableEq, Repr

/-- A diagnostic line printed by the reassembler. -/
inductive Diag where
  | reject (firstByte : Byte) (len : Nat)
  | restart
  | invalidContinuation
  | crcMismatch (received calculated : Nat)
  | fifoError (e : String)
deriving DecidableEq, Repr

/-- CRC-16/GENIBUS polynomial (0x1021). -/
def crc16_poly : Nat := 0x1021

/-- One left-shift round of the non-reflected CRC-16: shift, and xor in the
polynomial when the top bit was set.  Keeps the value below 2^16. -/
def crc16_round (c : Nat) : Nat :=
  if 0x8000 ≤ c then Nat.xor (c * 2) crc16_poly % 0x10000 else c * 2 % 0x10000

/-- Feed one byte into the CRC-16 state (xor into the high byte, then eight
shift rounds), as computed by the `crc` crate for `CRC_16_GENIBUS`
(poly 0x1021, init 0xFFFF, no reflection, xorout 0xFFFF). -/
def crc16_step (c : Nat) (b : Byte) : Nat :=
  crc16_round^[8] (Nat.xor c (b.val * 0x100))

/-- CRC-16/GENIBUS digest of a byte string. -/
def crc16_genibus (data : List Byte) : Nat :=
  Nat.xor (data.foldl crc16_step 0xFFFF) 0xFFFF

/-- `u16::from_be_bytes`: big-endian recombination of two bytes. -/
def u16_from_be (b0 b1 : Byte) : Nat := 256 * b0.val + b1.val

/-- The reject test of `process_chunk`: `flags.intersects(ABORT | SIZEFAIL |
ADDRFAIL | CRCFAIL | RESIDUE)`. -/
def rejectFlags (f : Flags) : Bool :=
  f.abort || f.sizefail || f.addrfail || f.crcfail || f.residue

/-- The outcome of one `process_chunk` call: the packet accumulator after the
call, the packets sent to the uplink socket, and the diagnostics printed. -/
structure ChunkResult where
  packet : List Byte
  forwarded : List (List Byte)
  diags : List Diag
deriving DecidableEq, Repr

/-- Embedding of `process_chunk` (src/bin/lband.rs lines 170-228).
`none` models a panic: the reject branch prints `data[0]`, which is out of
bounds when the payload is empty, and the PKTEND branch calls
`packet.split_off(packet.len() - 2)`, whose index underflows when the
accumulated buffer holds fewer than 2 bytes. -/
def process_chunk (chunk : FIFOChunkRX) (packet : List Byte) : Option ChunkResult :=
  match chunk with
  | .NONDATA _ => some ⟨packet, [], []⟩
  | .DATA flags data =>
    if rejectFlags flags then
      match data with
      | [] => none
      | b :: _ => some ⟨[], [], [Diag.reject b data.length]⟩
    else
      let restartDiags := if flags.pktstart && !packet.isEmpty then [Diag.restart] else []
      let packet1 := if flags.pktstart then [] else packet
      if !flags.pktstart && packet1.isEmpty then
        some ⟨packet1, [], restartDiags ++ [Diag.invalidContinuation]⟩
      else
        let packet2 := packet1 ++ data
        if flags.pktend then
          if packet2.length < 2 then none
          else
            let n := packet2.length - 2
            let body := packet2.take n
            let tail := packet2.drop n
            let checksum := u16_from_be (tail.getD 0 0) (tail.getD 1 0)
            let calculated := crc16_genibus body
            if calculated = checksum then
              some ⟨[], [body], restartDiags⟩
            else
              some ⟨[], [], restartDiags ++ [Diag.crcMismatch checksum calculated]⟩
        else
          some ⟨packet2, [], restartDiags⟩

/-- The CRC model reproduces the CRC-16/GENIBUS check value 0xD64E on the
standard input "123456789". -/
theorem crc16_genibus_check :
    crc16_genibus [0x31, 0x32, 0x33, 0x34, 0x35, 0x36, 0x37, 0x38, 0x39] = 0xD64E := by
  decide

/-- crc16("ABCD") = 0x4005, the checksum used by the spec's round-trip
test vector. -/
theorem crc16_genibus_ABCD :
    crc16_genibus [0x41, 0x42, 0x43, 0x44] = 0x4005 := by
  decide

/-- Sequential processing of the chunk list returned by one
`FIFODATARX().read(len)` (the `for chunk in chunks` loop of `read_packet`).
Results are threaded through the packet accumulator; `none` propagates a
panic in `process_chunk`. -/
def process_chunk_list : List FIFOChunkRX → List Byte → Option ChunkResult
  | [], packet => some ⟨packet, [], []⟩
  | c :: rest, packet =>
    match process_chunk c packet with
    | none => none
    | some r =>
      match process_chunk_list rest r.packet with
      | none => none
      | some r' => some ⟨r'.packet, r.forwarded ++ r'.forwarded, r.diags ++ r'.diags⟩

/-- Embedding of `read_packet` (src/bin/lband.rs lines 230-249).  `len` is
the value read from FIFOCOUNT and `readRes` the hardware's response to
`FIFODATARX().read(len)`: `Except.error e` is a hardware-reported FIFO read
error, which the code logs and recovers from by clearing the buffer and
returning `Ok(())`. -/
def read_packet (len : Nat) (readRes : Except String (List FIFOChunkRX))
    (packet : List Byte) : Option ChunkResult :=
  if len = 0 then some ⟨packet, [], []⟩
  else
    match readRes with
    | .ok chunks => process_chunk_list chunks packet
    | .error e => some ⟨[], [], [Diag.fifoError e]⟩

/-! ### The readiness event loop (`main`, src/bin/lband.rs lines 388-411)

`main` polls for readiness events and handles them strictly one at a time in
arrival order: a TELEMETRY tick, an IRQ (which drains every pending FIFO
chunk through `process_chunk` before returning), or SIGINT, which executes
`break 'outer`.  The model below replays the readiness events as a list;
an IRQ event carries the chunks its drain reads. -/

/-- One readiness event delivered by the poller. -/
inductive Event where
  | timer
  | irq (chunks : List FIFOChunkRX)
  | sigint
deriving DecidableEq, Repr

/-- The loop state: the packet accumulator, everything forwarded to the
uplink so far, and the trace of chunks handed to `process_chunk` so far. -/
structure LoopSt where
  packet : List Byte
  forwarded : List (List Byte)
  trace : List FIFOChunkRX
deriving DecidableEq, Repr

/-- FIFO drain for one IRQ event: each chunk read is processed by
`process_chunk`, in order, before the loop can look at any further
readiness event.  `none` propagates a `process_chunk` panic. -/
def drain : List FIFOChunkRX → LoopSt → Option LoopSt
  | [], st => some st
  | c :: rest, st =>
    match process_chunk c st.packet with
    | none => none
    | some r =>
      drain rest ⟨r.packet, st.forwarded ++ r.forwarded, st.trace ++ [c]⟩

/-- The event loop: events are handled strictly in order; SIGINT executes
`break 'outer`, abandoning the loop (and any events queued behind it) —
the Bool is true when the loop exited via SIGINT, false when the replayed
event list ran out with the loop still running. -/
def run_loop : List Event → LoopSt → Option (LoopSt × Bool)
  | [], st => some (st, false)
  | .timer :: rest, st => run_loop rest st
  | .sigint :: _, st => some (st, true)
  | .irq chunks :: rest, st =>
    match drain chunks st with
    | none => none
    | some st' => run_loop rest st'

/-- The chunks contained in IRQ drains that start before the first SIGINT
readiness event. -/
def chunks_before_sigint : List Event → List FIFOChunkRX
  | [] => []
  | .timer :: rest => chunks_before_sigint rest
  | .sigint :: _ => []
  | .irq chunks :: rest => chunks ++ chunks_before_sigint rest

/-! ### Receiver-profile register derivation
(`RXParameters::write`, src/ax5043/examples/lband.rs lines 84-148)

The function performs a fixed sequence of register writes, each computed by
u64 integer arithmetic and narrowed with `try_into().unwrap()`.  We model it
as the list of writes performed together with the failure, if any, that cut
the sequence short.  A failed `try_into().unwrap()` is a panic (it carries
no register name or value), as is a division by zero.

Register widths for the narrowing conversions are not part of src/.
Modelled from the spec: the spec's design notes give the DECIMATION register
~7 bits, the IF-frequency register 20 bits and the RF-offset register
24 bits; the RXDATARATE width is not given and its conversion is modelled as
in-range. -/

/-- One register write performed by `RXParameters::write`. -/
inductive RegWrite where
  | IFFREQ (v : Nat)
  | DECIMATION (v : Nat)
  | RXDATARATE (v : Nat)
  | MAXDROFFSET (v : Nat)
  | MAXRFOFFSET (offset : Nat) (correction : Bool)
  | AMPLFILTER (v : Nat)
  | FREQUENCYLEAK (v : Nat)
deriving DecidableEq, Repr

/-- How a run of `RXParameters::write` can fail.  The embedded code can only
panic (`try_into().unwrap()` on an out-of-range value, or an integer
division by zero); `configurationError` is the failure the spec describes —
an error value naming the destination register and the computed value — and
is never produced by the code. -/
inductive RxWriteFailure where
  | panicTryFromInt
  | panicDivZero
  | configurationError (register : String) (value : Nat)
deriving DecidableEq, Repr

/-- The writes performed (in order) and the failure, if any, that stopped
the sequence. -/
structure RxWriteTrace where
  writes : List RegWrite
  failure : Option RxWriteFailure
deriving DecidableEq, Repr

/-- Embedding of `RXParameters::write` for the MSK variant
(examples/lband.rs lines 84-148), parameterized by the fields of the
`RXParameters::MSK` value, the board's crystal frequency and divider, and
the channel datarate.  `if_freq = 56_520`, `fbaseband = 500_000` and
`max_rf_offset = 873` are the literals in the source. -/
def rxParameters_write (freq_offs_corr : Bool) (ampl_filter frequency_leak : Nat)
    (xtal_freq xtal_div datarate : Nat) : RxWriteTrace :=
  if xtal_freq = 0 then ⟨[], some .panicDivZero⟩
  else
    let ifval := 56520 * xtal_div * 2 ^ 20 / xtal_freq
    if 2 ^ 20 ≤ ifval then ⟨[], some .panicTryFromInt⟩
    else
      let w1 := [RegWrite.IFFREQ ifval]
      let denom := 500000 * 2 ^ 4 * xtal_div
      if denom = 0 then ⟨w1, some .panicDivZero⟩
      else
        let decimation := xtal_freq / denom
        if 2 ^ 7 ≤ decimation then ⟨w1, some .panicTryFromInt⟩
        else
          let w2 := w1 ++ [RegWrite.DECIMATION decimation]
          let denom2 := datarate * xtal_div * decimation
          if denom2 = 0 then ⟨w2, some .panicDivZero⟩
          else
            let rxdr := 2 ^ 7 * xtal_freq / denom2
            let w3 := w2 ++ [RegWrite.RXDATARATE rxdr, RegWrite.MAXDROFFSET 0]
            let off := 873 * 2 ^ 24 / xtal_freq
            if 2 ^ 24 ≤ off then ⟨w3, some .panicTryFromInt⟩
            else
              ⟨w3 ++ [RegWrite.MAXRFOFFSET off freq_offs_corr,
                      RegWrite.MAXRFOFFSET 0x131 true,
                      RegWrite.AMPLFILTER ampl_filter,
                      RegWrite.FREQUENCYLEAK frequency_leak], none⟩

/-- Modelled from the spec: `if_register = round(if_freq_hz * divider * 2^20
/ crystal.freq)` — the nearest integer to the exact rational, written here
as round-half-up, with the source's `if_freq = 56_520`.  This definition
follows the spec's words and exists to be compared against the value the
code writes. -/
def spec_if_register (xtal_freq xtal_div : Nat) : Nat :=
  (2 * (56520 * xtal_div * 2 ^ 20) + xtal_freq) / (2 * xtal_freq)

/-! ### Bring-up revision gate (`main`, src/bin/lband.rs lines 338-349)

`main` resets the chip, reads REVISION, and runs
`ensure!(rev == 0x51, "Unexpected revision {}, expected {}", rev, 0x51)`:
on any other value it returns an error immediately, so none of the
configuration steps that follow (configure_radio_rx, PA enable, power mode,
FIFO clear, IRQ mask) execute. -/

/-- The radio-configuration actions `main` performs after the revision
check, in order. -/
inductive BringupAction where
  | configureRadioRx
  | paEnable
  | pwrModeRx
  | fifoClearError
  | fifoClearData
  | irqMask
deriving DecidableEq, Repr

/-- Embedding of the revision gate and the configuration sequence that
follows it in `main`: given the value read from REVISION, either the full
bring-up action list, or the error produced by `ensure!`. -/
def main_bringup (rev : Nat) : Except String (List BringupAction) :=
  if rev = 0x51 then
    .ok [.configureRadioRx, .paEnable, .pwrModeRx,
         .fifoClearError, .fifoClearData, .irqMask]
  else
    .error ("Unexpected revision " ++ toString rev ++ ", expected 81")

/-! ### Helper lemmas -/

/-- A successful FIFO drain processes exactly the chunks it read, in order:
the processed-chunk trace grows by the full chunk list. -/
theorem drain_trace_complete :
    ∀ (chunks : List FIFOChunkRX) (st st' : LoopSt),
      drain chunks st = some st' → st'.trace = st.trace ++ chunks := by
  intro chunks
  induction chunks with
  | nil =>
    intro st st' h
    simp only [drain, Option.some.injEq] at h
    simp [← h]
  | cons c rest ih =>
    intro st st' h
    simp only [drain] at h
    cases hc : process_chunk c st.packet with
    | none => rw [hc] at h; exact absurd h (by simp)
    | some r =>
      rw [hc] at h
      have := ih _ _ h
      simpa [List.append_assoc] using this

/-! ### Claim theorems -/

/-- C10: for every FIFO chunk that is not a DATA variant, `process_chunk` is
a no-op: it returns success, forwards nothing, prints nothing, and leaves
the packet buffer exactly unchanged. -/
theorem nondata_chunk_noop (tag : Nat) (packet : List Byte) :
    process_chunk (.NONDATA tag) packet = some ⟨packet, [], []⟩ := rfl

/-- C9: `process_chunk` is not total — on a DATA chunk carrying both
PKTSTART and PKTEND with a payload of 0 or 1 bytes, the accumulated buffer
holds fewer than 2 bytes at the PKTEND split, `packet.len() - 2` underflows,
and `split_off` panics (modelled as `none`). -/
theorem pktend_short_buffer_panics :
    process_chunk (.DATA ⟨true, true, false, false, false, false, false⟩ []) [] = none ∧
    process_chunk (.DATA ⟨true, true, false, false, false, false, false⟩ [0x41]) [] = none := by
  constructor <;> decide

/-- C4: whenever `FIFODATARX().read` reports a hardware error, `read_packet`
clears the accumulated packet buffer, logs the error, forwards nothing, and
returns success (so the event loop continues). -/
theorem fifo_read_error_recovered (len : Nat) (e : String) (packet : List Byte)
    (hlen : len ≠ 0) :
    read_packet len (.error e) packet = some ⟨[], [], [Diag.fifoError e]⟩ := by
  simp [read_packet, hlen]

/-- Witness for C4 at len = 1, a concrete error string and a non-empty
buffer. -/
theorem fifo_read_error_recovered_witness :
    (1 : Nat) ≠ 0 ∧
    read_packet 1 (.error "FIFO overflow") [0xAA] =
      some ⟨[], [], [Diag.fifoError "FIFO overflow"]⟩ :=
  ⟨by decide, fifo_read_error_recovered 1 "FIFO overflow" [0xAA] (by decide)⟩

/-- C7: when the REVISION register read during bring-up returns any value
other than 0x51, `main` fails with the
descriptive `ensure!` message and performs none of the radio-configuration
actions that follow the check. -/
theorem revision_gate_fatal (rev : Nat) (h : rev ≠ 0x51) :
    main_bringup rev =
      .error ("Unexpected revision " ++ toString rev ++ ", expected 81") ∧
    ∀ acts, main_bringup rev ≠ .ok acts := by
  refine ⟨?_, ?_⟩
  · simp [main_bringup, h]
  · intro acts
    simp [main_bringup, h]

/-- Witness for C7 at the concrete revision 0x52. -/
theorem revision_gate_fatal_witness :
    (0x52 : Nat) ≠ 0x51 ∧
    main_bringup 0x52 =
      .error ("Unexpected revision " ++ toString (0x52 : Nat) ++ ", expected 81") :=
  ⟨by decide, (revision_gate_fatal 0x52 (by decide)).1⟩

/-- C3 counterexample: the claim quantifies over every DATA chunk without
PKTSTART arriving on an empty buffer, but a chunk that also carries a reject
flag and an empty payload makes the reject diagnostic index `data[0]` out of
bounds: `process_chunk` panics instead of discarding the chunk. -/
theorem empty_continuation_reject_empty_payload_panics :
    process_chunk (.DATA ⟨false, false, false, false, false, true, false⟩ []) [] = none := by
  decide

/-- C3 (amended): every DATA chunk without PKTSTART arriving on an empty
buffer — except a reject-flagged chunk with an empty payload — is discarded
with one diagnostic: nothing is forwarded and the buffer stays empty. -/
theorem empty_buffer_continuation_discarded (fl : Flags) (data : List Byte)
    (hps : fl.pktstart = false)
    (hsafe : rejectFlags fl = false ∨ data ≠ []) :
    ∃ d, process_chunk (.DATA fl data) [] = some ⟨[], [], [d]⟩ := by
  cases hrej : rejectFlags fl with
  | true =>
    have hdata : data ≠ [] := by
      rcases hsafe with h | h
      · rw [hrej] at h; exact absurd h (by simp)
      · exact h
    match data, hdata with
    | b :: t, _ =>
      exact ⟨Diag.reject b (b :: t).length, by simp [process_chunk, hrej]⟩
  | false =>
    exact ⟨Diag.invalidContinuation, by simp [process_chunk, hrej, hps]⟩

/-- Witness for the amended C3: a continuation chunk with no flags and a
one-byte payload on an empty buffer. -/
theorem empty_buffer_continuation_discarded_witness :
    (⟨false, false, false, false, false, false, false⟩ : Flags).pktstart = false ∧
    ∃ d, process_chunk
        (.DATA ⟨false, false, false, false, false, false, false⟩ [0x01]) [] =
      some ⟨[], [], [d]⟩ :=
  ⟨rfl, empty_buffer_continuation_discarded _ [0x01] rfl (Or.inl rfl)⟩

/-- C5 counterexample: the claim quantifies over every reject-flagged DATA
chunk and every buffer state, but the reject diagnostic prints `data[0]`,
which panics when the payload is empty — the buffer is not cleared and no
diagnostic is emitted. -/
theorem reject_empty_payload_panics :
    process_chunk (.DATA ⟨false, false, true, false, false, false, false⟩ []) [0xAA] =
      none := by
  decide

/-- C5 (amended): every reject-flagged DATA chunk with a non-empty payload
clears the buffer, emits exactly the reject diagnostic, forwards nothing,
and leaves the reassembler in the EMPTY state; a subsequent PKTSTART chunk
(without reject flags or PKTEND) then starts a new packet holding exactly
its own payload — no bytes from before the reject. -/
theorem reject_flag_clears_buffer (fl : Flags) (data packet : List Byte)
    (hrej : rejectFlags fl = true) (hdata : data ≠ []) :
    (∃ b t, data = b :: t ∧
        process_chunk (.DATA fl data) packet =
          some ⟨[], [], [Diag.reject b data.length]⟩) ∧
    ∀ (fl2 : Flags) (data2 : List Byte),
      fl2.pktstart = true → rejectFlags fl2 = false → fl2.pktend = false →
      process_chunk (.DATA fl2 data2) [] = some ⟨data2, [], []⟩ := by
  constructor
  · match data, hdata with
    | b :: t, _ => exact ⟨b, t, rfl, by simp [process_chunk, hrej]⟩
  · intro fl2 data2 h1 h2 h3
    simp [process_chunk, h1, h2, h3]

/-- Witness for the amended C5: an ABORT-flagged one-byte chunk on a
non-empty buffer, followed by a clean PKTSTART chunk. -/
theorem reject_flag_clears_buffer_witness :
    process_chunk (.DATA ⟨false, false, true, false, false, false, false⟩ [0x01]) [0xAA] =
        some ⟨[], [], [Diag.reject 0x01 1]⟩ ∧
    process_chunk (.DATA ⟨true, false, false, false, false, false, false⟩ [0x02]) [] =
        some ⟨[0x02], [], []⟩ := by
  have h := reject_flag_clears_buffer
    ⟨false, false, true, false, false, false, false⟩ [0x01] [0xAA] rfl (by decide)
  constructor
  · obtain ⟨b, t, hbt, heq⟩ := h.1
    injection hbt with hb ht
    subst hb; subst ht
    simpa using heq
  · exact h.2 ⟨true, false, false, false, false, false, false⟩ [0x02] rfl rfl rfl

/-- C1: on a DATA chunk carrying PKTEND, with no reject flag, a valid
continuation (PKTSTART or a non-empty buffer), and at least 2 accumulated
bytes, `process_chunk` splits the last 2 accumulated bytes off as a
big-endian u16 checksum, computes CRC-16/GENIBUS over the remaining bytes,
forwards exactly those bytes as one packet iff the digest equals the
checksum (a mismatch diagnostic and nothing forwarded otherwise), and in
both cases leaves the buffer empty. -/
theorem pktend_checksum_validation (fl : Flags) (data packet : List Byte)
    (hrej : rejectFlags fl = false) (hend : fl.pktend = true)
    (hcont : fl.pktstart = true ∨ packet ≠ [])
    (hlen : 2 ≤ ((if fl.pktstart then [] else packet) ++ data).length) :
    let acc := (if fl.pktstart then [] else packet) ++ data
    let n := acc.length - 2
    let body := acc.take n
    let checksum := u16_from_be ((acc.drop n).getD 0 0) ((acc.drop n).getD 1 0)
    let calculated := crc16_genibus body
    process_chunk (.DATA fl data) packet =
      some ⟨[],
            if calculated = checksum then [body] else [],
            (if fl.pktstart && !packet.isEmpty then [Diag.restart] else []) ++
              (if calculated = checksum then []
               else [Diag.crcMismatch checksum calculated])⟩ := by
  cases hps : fl.pktstart with
  | true =>
    rw [hps] at hlen
    simp only [process_chunk, hrej, hend, hps, Bool.false_eq_true, if_false,
      Bool.not_true, Bool.false_and, Bool.and_eq_true, false_and, if_true]
    simp only [Bool.false_eq_true, if_false, List.nil_append,
      List.append_nil, Option.ite_none_left_eq_some, Option.some.injEq]
    refine ⟨by simpa using hlen, ?_⟩
    split_ifs <;> simp
  | false =>
    have hpkt : packet ≠ [] := by
      rcases hcont with h | h
      · rw [hps] at h; exact absurd h (by simp)
      · exact h
    rw [hps] at hlen
    simp only [process_chunk, hrej, hend, hps, if_false, Bool.not_false,
      Bool.true_and, List.isEmpty_eq_true, hpkt, if_true]
    simp only [Bool.false_eq_true, if_false, List.nil_append, List.append_nil,
      Option.ite_none_left_eq_some, Option.some.injEq, hpkt]
    refine ⟨by simpa using hlen, ?_⟩
    split_ifs <;> simp

/-- Witness for C1: the spec's round-trip vector — chunk PKTSTART+"AB" then
chunk PKTEND+"CD"+crc16("ABCD") forwards exactly one packet "ABCD" with no
diagnostics and empties the buffer. -/
theorem pktend_checksum_validation_witness :
    process_chunk (.DATA ⟨true, false, false, false, false, false, false⟩
        [0x41, 0x42]) [] = some ⟨[0x41, 0x42], [], []⟩ ∧
    process_chunk (.DATA ⟨false, true, false, false, false, false, false⟩
        [0x43, 0x44, 0x40, 0x05]) [0x41, 0x42] =
      some ⟨[], [[0x41, 0x42, 0x43, 0x44]], []⟩ := by
  constructor
  · decide
  · have h := pktend_checksum_validation
      ⟨false, true, false, false, false, false, false⟩
      [0x43, 0x44, 0x40, 0x05] [0x41, 0x42]
      rfl rfl (Or.inr (by decide)) (by decide)
    exact h.trans (by decide)

/-- C2 counterexample: at crystal frequency 1 024 000 000 Hz (divider 1) the
derived decimation is 128, which does not fit the 7-bit register; the code's
`try_into().unwrap()` panics — an unnamed crash carrying neither a register
name nor the computed value — instead of failing with a ConfigurationError
naming the register and the value as the claim states. -/
theorem decimation_overflow_panics_not_configuration_error :
    rxParameters_write true 0 0 1024000000 1 60000 =
      ⟨[RegWrite.IFFREQ 57], some .panicTryFromInt⟩ ∧
    (rxParameters_write true 0 0 1024000000 1 60000).failure ≠
      some (.configurationError "DECIMATION" 128) := by
  constructor <;> decide

/-- C2 (amended): the decimation register value is derived as
`floor(crystal.freq / (fbaseband * 16 * divider))` by truncating integer
division and written when it fits 7 bits; when it does not fit, the write
sequence stops at the failed narrowing conversion with a panic (nothing
clamped or wrapped is written — the trace holds only the IFFREQ write),
rather than a ConfigurationError naming the register. -/
theorem decimation_register_derivation (corr : Bool) (af flk f d dr : Nat)
    (hf : 0 < f) (hd : 0 < d)
    (hif : 56520 * d * 2 ^ 20 / f < 2 ^ 20) :
    (f / (500000 * 2 ^ 4 * d) < 2 ^ 7 →
       RegWrite.DECIMATION (f / (500000 * 2 ^ 4 * d)) ∈
         (rxParameters_write corr af flk f d dr).writes) ∧
    (2 ^ 7 ≤ f / (500000 * 2 ^ 4 * d) →
       (rxParameters_write corr af flk f d dr).failure = some .panicTryFromInt ∧
       (rxParameters_write corr af flk f d dr).writes =
         [RegWrite.IFFREQ (56520 * d * 2 ^ 20 / f)]) := by
  have hf' : f ≠ 0 := hf.ne'
  have hdenom : 500000 * 2 ^ 4 * d ≠ 0 := Nat.mul_ne_zero (by norm_num) hd.ne'
  constructor
  · intro hdec
    simp only [rxParameters_write]
    rw [if_neg hf', if_neg (Nat.not_le.mpr hif), if_neg hdenom,
      if_neg (Nat.not_le.mpr hdec)]
    split_ifs <;> simp
  · intro hdec
    simp only [rxParameters_write]
    rw [if_neg hf', if_neg (Nat.not_le.mpr hif), if_neg hdenom, if_pos hdec]
    exact ⟨rfl, rfl⟩

/-- Witness for the amended C2 at the 48 MHz crystal, divider 1,
datarate 60000: decimation 6 is in range and is written. -/
theorem decimation_register_derivation_witness :
    (0 : Nat) < 48000000 ∧ 48000000 / (500000 * 2 ^ 4 * 1) < 2 ^ 7 ∧
    RegWrite.DECIMATION 6 ∈ (rxParameters_write true 0 0 48000000 1 60000).writes :=
  ⟨by decide, by decide,
    (decimation_register_derivation true 0 0 48000000 1 60000
      (by decide) (by decide) (by decide)).1 (by decide)⟩

/-- C6 counterexample: at crystal frequency 48 MHz, divider 1, the exact
rational 56520·2^20/48000000 has fractional part strictly above one half, so
its nearest integer is 1235; the code writes the truncated value 1234
(`/` on u64 rounds toward zero), not the rounded one. -/
theorem if_register_truncates_not_rounds :
    RegWrite.IFFREQ 1234 ∈ (rxParameters_write true 0 0 48000000 1 60000).writes ∧
    spec_if_register 48000000 1 = 1235 ∧
    48000000 < 2 * (56520 * 1 * 2 ^ 20 % 48000000) ∧
    RegWrite.IFFREQ (spec_if_register 48000000 1) ∉
      (rxParameters_write true 0 0 48000000 1 60000).writes := by
  refine ⟨by decide, by decide, by decide, by decide⟩

/-- C6 (amended): the IF-frequency register value the compiler writes is
`floor(if_freq_hz * divider * 2^20 / crystal.freq)` — truncating integer
division, not round-to-nearest. -/
theorem if_register_derivation (corr : Bool) (af flk f d dr : Nat)
    (hf : 0 < f) (hif : 56520 * d * 2 ^ 20 / f < 2 ^ 20) :
    RegWrite.IFFREQ (56520 * d * 2 ^ 20 / f) ∈
      (rxParameters_write corr af flk f d dr).writes := by
  have hf' : f ≠ 0 := hf.ne'
  simp only [rxParameters_write]
  rw [if_neg hf', if_neg (Nat.not_le.mpr hif)]
  split_ifs <;> simp

/-- Witness for the amended C6 at the 16 MHz crystal of the flight board:
the written IF register value is 3704 = floor(56520·2^20/16000000). -/
theorem if_register_derivation_witness :
    (0 : Nat) < 16000000 ∧ 56520 * 1 * 2 ^ 20 / 16000000 < 2 ^ 20 ∧
    RegWrite.IFFREQ 3704 ∈ (rxParameters_write true 0 0 16000000 1 60000).writes :=
  ⟨by decide, by decide,
    by
      have h := if_register_derivation true 0 0 16000000 1 60000 (by decide) (by decide)
      simpa using h⟩

/-- C8: when the event loop exits through a termination-signal readiness
event, every chunk of every FIFO drain begun before that signal was
processed by the reassembler — the processed trace is exactly the
concatenation of the drained chunk lists, none cut short by cancellation. -/
theorem sigint_honored_after_drain (evs : List Event) (st st' : LoopSt)
    (h : run_loop evs st = some (st', true)) :
    st'.trace = st.trace ++ chunks_before_sigint evs := by
  induction evs generalizing st with
  | nil => simp [run_loop] at h
  | cons e rest ih =>
    cases e with
    | timer =>
      simpa [chunks_before_sigint] using ih st (by simpa [run_loop] using h)
    | sigint =>
      simp only [run_loop, Option.some.injEq, Prod.mk.injEq] at h
      simp [chunks_before_sigint, ← h.1]
    | irq chunks =>
      simp only [run_loop] at h
      cases hd : drain chunks st with
      | none => rw [hd] at h; exact absurd h (by simp)
      | some st1 =>
        rw [hd] at h
        have h1 := ih st1 h
        have h2 := drain_trace_complete chunks st st1 hd
        rw [h1, h2, chunks_before_sigint, List.append_assoc]

/-- Witness for C8: one IRQ drain of a single chunk followed by SIGINT; the
loop exits with that chunk in the processed trace. -/
theorem sigint_honored_after_drain_witness :
    run_loop [Event.irq [FIFOChunkRX.NONDATA 0], Event.sigint] ⟨[], [], []⟩ =
      some (⟨[], [], [FIFOChunkRX.NONDATA 0]⟩, true) ∧
    (⟨[], [], [FIFOChunkRX.NONDATA 0]⟩ : LoopSt).trace =
      (⟨[], [], []⟩ : LoopSt).trace ++
        chunks_before_sigint [Event.irq [FIFOChunkRX.NONDATA 0], Event.sigint] :=
  ⟨by decide,
    sigint_honored_after_drain [Event.irq [FIFOChunkRX.NONDATA 0], Event.sigint]
      ⟨[], [], []⟩ ⟨[], [], [FIFOChunkRX.NONDATA 0]⟩ (by decide)⟩

end Ax5043
